import Mathlib

/-!
Verification of the WTM (wine tasting management) order store against its
natural-language specification.  The repository contains several
near-identical server variants; the definitions below are shallow
embeddings of the handlers the claims cite:

* `slug` — the group identifier computation
  `groupName.toLowerCase().replace(/[^a-z0-9]/g, '_')` from the in-memory
  Map server (src/unnamed/part_000, first document, line 79 and the
  resolver fallback at lines 167-169).
* `toggleStatus` — the toggle computation of the PostgreSQL server in
  src/unnamed/part_000 (second document, line 566).
* `updateSel` — the shared "validate guest key and index, then set the
  status field" step used by every status-update handler.
* `createOrder0`, `resolveOrder`, `recomputeGroup` — the in-memory Map
  server of src/unnamed/part_000 (first document).
* `create3`, `putOrderStatus3`, `putWineStatus3` — the express router of
  src/unnamed/part_003.
* `putStatusById`, `putStatusByGroup`, `getByGroup` — src/backend/routes/orders.js.
* `putStatusServer` and the interleaving model `runSched` —
  src/backend/server.js PUT /api/orders/:orderId/status.

JavaScript objects used as dictionaries are modelled as association
lists (`alookup` / `aset`), which preserves key insertion order the way
JS `Map` and plain objects do.  Timestamps are modelled as naturals
passed in by the caller (the code takes them from `NOW()` / `Date.now()`).
-/

/-- One wine selection record `{ wine..., status }`; only the `status`
field is ever mutated by the handlers. -/
structure Selection where
  wine : String
  status : String
deriving DecidableEq, Repr

/-- A `selections` document: JS object mapping guest key to an array of
selection records, modelled as an association list. -/
abbrev Selections := List (String × List Selection)

/-- Lookup in a JS-object-as-dictionary: first binding of the key wins. -/
def alookup {α : Type} : List (String × α) → String → Option α
  | [], _ => none
  | (k, v) :: rest, key => if k = key then some v else alookup rest key

/-- JS `obj[k] = v` / `Map.set`: replace the binding in place when the key
exists (keeping its position, as JS objects and Maps do), append otherwise. -/
def aset {α : Type} : List (String × α) → String → α → List (String × α)
  | [], key, v => [(key, v)]
  | (k, w) :: rest, key, v =>
    if k = key then (key, v) :: rest else (k, w) :: aset rest key v

/-- Character class `[a-z0-9]` of the slug regular expression. -/
def isSlugKeep (c : Char) : Bool :=
  (97 ≤ c.toNat && c.toNat ≤ 122) || (48 ≤ c.toNat && c.toNat ≤ 57)

/-- JS `String.prototype.toLowerCase`, per character (ASCII behaviour). -/
def jsLower (s : String) : String :=
  String.mk (s.data.map Char.toLower)

/-- JS `replace(/[^a-z0-9]/g, '_')`: every character outside `[a-z0-9]`
is replaced by one underscore. -/
def replaceNonAlnum (s : String) : String :=
  String.mk (s.data.map (fun c => if isSlugKeep c then c else '_'))

/-- Slug computation of src/unnamed/part_000 line 79:
`body.groupName.toLowerCase().replace(/[^a-z0-9]/g, '_')`. -/
def slug (s : String) : String :=
  replaceNonAlnum (jsLower s)

/-- Slug function as worded by the specification: lower-cased,
every maximal run of non-alphanumeric characters collapsed to a single
separator.  Kept separate from `slug` (which embeds the source) so the
two can be compared. -/
def specCollapseSlug (s : String) : String :=
  String.mk ((jsLower s).data.foldr
    (fun c acc =>
      if isSlugKeep c then c :: acc
      else match acc with
        | d :: rest => if d = '_' then acc else '_' :: d :: rest
        | [] => ['_'])
    [])

/-- Toggle computation of src/unnamed/part_000 (second document) line 566:
`(currentStatus === 'non-servi' || currentStatus === 'pending') ? 'servi' : 'non-servi'`. -/
def toggleStatus (currentStatus : String) : String :=
  if currentStatus = "non-servi" || currentStatus = "pending" then "servi" else "non-servi"

/-- The guarded selection mutation shared by all status handlers:
`if (selections[guest] && selections[guest][idx]) { selections[guest][idx].status = st }`.
Returns `none` exactly when the JS condition is falsy (guest key absent,
or index out of the guest's array). -/
def updateSel (sels : Selections) (guest : String) (idx : Nat) (st : String) :
    Option Selections :=
  match alookup sels guest with
  | none => none
  | some wines =>
    match wines[idx]? with
    | none => none
    | some w => some (aset sels guest (wines.set idx { w with status := st }))

/-- Claim C4: the toggle maps pending to servi, servi to non-servi and
non-servi to servi; three successive toggles from pending give servi,
non-servi, servi. -/
theorem c4_toggle_semantics :
    toggleStatus "pending" = "servi" ∧
    toggleStatus "servi" = "non-servi" ∧
    toggleStatus "non-servi" = "servi" ∧
    toggleStatus (toggleStatus "pending") = "non-servi" ∧
    toggleStatus (toggleStatus (toggleStatus "pending")) = "servi" := by
  refine ⟨rfl, rfl, rfl, rfl, rfl⟩

/-- Claim C6 counterexample: the source slug does NOT collapse runs of
non-alphanumeric characters: on the name with two consecutive spaces it
yields two separators, differing from the collapsing slug the
specification describes. -/
theorem c6_counterexample :
    slug "a  b" = "a__b" ∧ specCollapseSlug "a  b" = "a_b" ∧
    slug "a  b" ≠ specCollapseSlug "a  b" := by
  refine ⟨by decide, by decide, by decide⟩

/-- Claim C6 as amended: the slug is a pure deterministic function that
lower-cases the name and replaces each non-alphanumeric character with a
single separator character (one separator per character; runs are not
collapsed). -/
theorem c6_slug_pointwise :
    (∀ s t : String, s = t → slug s = slug t) ∧
    (∀ s : String, (slug s).data =
      s.data.map (fun c =>
        if isSlugKeep (Char.toLower c) then Char.toLower c else '_')) := by
  constructor
  · intro s t h; rw [h]
  · intro s
    simp [slug, jsLower, replaceNonAlnum, List.map_map, Function.comp]

/-- Claim C6 amended witness at a concrete name. -/
theorem c6_slug_pointwise_witness :
    (slug "Table 5").data =
      "Table 5".data.map (fun c =>
        if isSlugKeep (Char.toLower c) then Char.toLower c else '_') :=
  c6_slug_pointwise.2 "Table 5"

/-! ## In-memory Map server (src/unnamed/part_000, first document) -/

/-- Order record built by `POST /api/orders` (part_000 lines 83-99).
The human-readable timestamp fields carry no logic and are omitted. -/
structure Order0 where
  id : String
  groupId : String
  groupName : String
  guestNames : List (String × String)
  selections : Selections
  status : String
deriving DecidableEq, Repr

/-- Group record built at order creation (part_000 lines 105-113). -/
structure Group0 where
  id : String
  name : String
  orderId : String
  status : String
  guestCount : Nat
  wineCount : Nat
deriving DecidableEq, Repr

/-- The two in-memory Maps of the server (part_000 lines 6-7). -/
structure Store0 where
  orders : List (String × Order0)
  groups : List (String × Group0)
deriving Repr

/-- The order object assembled by `POST /api/orders` (part_000 lines 83-99);
`orderId` models the freshly generated id, `status` is always `active`. -/
def mkOrder0 (orderId groupName : String) (guestNames : List (String × String))
    (selections : Selections) : Order0 :=
  { id := orderId
    groupId := slug groupName
    groupName := groupName
    guestNames := guestNames
    selections := selections
    status := "active" }

/-- The group object assembled at creation (part_000 lines 105-113):
`guestCount` keeps only guest keys whose display name is truthy, and
`wineCount` is `Object.values(selections).reduce((t, ws) => t + ws.length, 0)`. -/
def mkGroup0 (orderId groupName : String) (guestNames : List (String × String))
    (selections : Selections) : Group0 :=
  { id := slug groupName
    name := groupName
    orderId := orderId
    status := "active"
    guestCount := (guestNames.filter (fun kv => kv.2 != "")).length
    wineCount := selections.foldl (fun t kv => t + kv.2.length) 0 }

/-- Handler `POST /api/orders` of part_000 (lines 74-125): stores the order
under its fresh id and unconditionally rebinds the group entry under the
slug of the submitted name.  There is no duplicate check and no failure path. -/
def createOrder0 (st : Store0) (orderId groupName : String)
    (guestNames : List (String × String)) (selections : Selections) : Store0 :=
  { orders := aset st.orders orderId (mkOrder0 orderId groupName guestNames selections)
    groups := aset st.groups (slug groupName)
      (mkGroup0 orderId groupName guestNames selections) }

/-- Recomputed counts of `GET /api/groups` (part_000 lines 131-140):
`guestCount` is the number of ALL guest-name keys of the referenced order
and `wineCount` the total number of selection records; both are 0 when the
referenced order is gone. -/
def recomputeGroup (st : Store0) (g : Group0) : Nat × Nat :=
  match alookup st.orders g.orderId with
  | some o => (o.guestNames.length, o.selections.foldl (fun t kv => t + kv.2.length) 0)
  | none => (0, 0)

/-- The fallback scan of the resolver (part_000 lines 166-173): first order
in Map iteration order whose recomputed name slug equals the identifier. -/
def resolveFallback (orders : List (String × Order0)) (identifier : String) :
    Option Order0 :=
  (orders.find? (fun kv => slug kv.2.groupName == identifier)).map (fun kv => kv.2)

/-- Resolver of `GET /api/orders/:identifier` (part_000 lines 153-175):
(a) direct order-id lookup; (b) group-map lookup (keys are creation-time
slugs) followed through `group.orderId` when that is truthy and present;
(c) fallback scan by recomputed name slug. -/
def resolveOrder (st : Store0) (identifier : String) : Option Order0 :=
  match alookup st.orders identifier with
  | some o => some o
  | none =>
    match alookup st.groups identifier with
    | some g =>
      if g.orderId != "" then
        match alookup st.orders g.orderId with
        | some o => some o
        | none => resolveFallback st.orders identifier
      else resolveFallback st.orders identifier
    | none => resolveFallback st.orders identifier

/-- Result of the full `GET /api/orders/:identifier` handler: the order, or
the 404 payload `{ identifier, availableOrders, availableGroups }`
(part_000 lines 177-190). -/
inductive ResolveResult where
  | found (o : Order0)
  | notFound (identifier : String) (availableOrders availableGroups : List String)
deriving DecidableEq, Repr

/-- Handler `GET /api/orders/:identifier` of part_000 (lines 146-190). -/
def getOrderHandler (st : Store0) (identifier : String) : ResolveResult :=
  match resolveOrder st identifier with
  | some o => .found o
  | none => .notFound identifier (st.orders.map (fun kv => kv.1))
      (st.groups.map (fun kv => kv.1))

/-! ## Helper lemmas on association lists -/

/-- Setting a key makes it readable back. -/
theorem alookup_aset_self {α : Type} (m : List (String × α)) (k : String) (v : α) :
    alookup (aset m k v) k = some v := by
  induction m with
  | nil => simp [aset, alookup]
  | cons a rest ih =>
    rcases a with ⟨k1, v1⟩
    by_cases h : k1 = k
    · simp [aset, h, alookup]
    · simp [aset, h, alookup, ih]

/-- Overwriting an existing key leaves the key structure unchanged. -/
theorem map_fst_aset_of_lookup {α : Type} (m : List (String × α)) (k : String)
    (v w : α) (h : alookup m k = some w) :
    (aset m k v).map Prod.fst = m.map Prod.fst := by
  induction m with
  | nil => simp [alookup] at h
  | cons a rest ih =>
    rcases a with ⟨k1, v1⟩
    by_cases h1 : k1 = k
    · simp [aset, h1]
    · simp [alookup, h1] at h
      simp [aset, h1, ih h]

/-- A Boolean `all` over pairs that only inspects keys factors through the
key list. -/
theorem all_eq_all_map_fst {α : Type} (p : String → Bool) (l : List (String × α)) :
    l.all (fun kv => p kv.1) = (l.map Prod.fst).all p := by
  induction l with
  | nil => rfl
  | cons a rest ih => simp [List.all, ih]

/-- A Boolean `all` that only inspects keys is determined by the key list. -/
theorem all_key_pred {α : Type} (p : String → Bool) (l1 l2 : List (String × α))
    (h : l1.map Prod.fst = l2.map Prod.fst) :
    l1.all (fun kv => p kv.1) = l2.all (fun kv => p kv.1) := by
  rw [all_eq_all_map_fst p l1, all_eq_all_map_fst p l2, h]

/-- The wine-count fold of the source is the sum of the per-guest lengths. -/
theorem foldl_wineCount (sels : Selections) (n : Nat) :
    sels.foldl (fun t kv => t + kv.2.length) n =
      n + (sels.map (fun kv => kv.2.length)).sum := by
  induction sels generalizing n with
  | nil => simp
  | cons a l ih => simp [List.foldl, ih, Nat.add_assoc]

/-- A successful `updateSel` only rewrites a status field: the guest keys of
the selections document are unchanged. -/
theorem updateSel_map_fst (sels : Selections) (guest : String) (idx : Nat)
    (st : String) (s2 : Selections) (h : updateSel sels guest idx st = some s2) :
    s2.map Prod.fst = sels.map Prod.fst := by
  unfold updateSel at h
  split at h
  next => cases h
  next wines hl =>
    split at h
    next => cases h
    next w hi =>
      cases h
      exact map_fst_aset_of_lookup sels guest _ wines hl

/-! ## Claim C8: group aggregation counts -/

/-- Guest names of the worked example of the specification: three guests,
one with an empty display name. -/
def exGuestNames : List (String × String) :=
  [("g1", "Alice"), ("g2", ""), ("g3", "Bob")]

/-- Selections of the worked example: per-guest sizes 2, 1 and 3. -/
def exSelections : Selections :=
  [("g1", [⟨"w1", "pending"⟩, ⟨"w2", "pending"⟩]),
   ("g2", [⟨"w3", "pending"⟩]),
   ("g3", [⟨"w4", "pending"⟩, ⟨"w5", "pending"⟩, ⟨"w6", "pending"⟩])]

/-- Claim C8 counterexample: on the spec's own example (3 guests, one with
an empty name, selections of sizes 2, 1, 3) the recomputed read-path view
of `GET /api/groups` returns `guestCount = 3`, not the 2 the claim states:
it counts ALL guest keys, not only those with a non-empty display name. -/
theorem c8_counterexample :
    recomputeGroup (createOrder0 ⟨[], []⟩ "o1" "Table 5" exGuestNames exSelections)
        (mkGroup0 "o1" "Table 5" exGuestNames exSelections) = (3, 6) ∧
    (recomputeGroup (createOrder0 ⟨[], []⟩ "o1" "Table 5" exGuestNames exSelections)
        (mkGroup0 "o1" "Table 5" exGuestNames exSelections)).1 ≠
      (exGuestNames.filter (fun kv => kv.2 != "")).length := by
  refine ⟨by decide, by decide⟩

/-- Claim C8 as amended: `wineCount` is the total number of selection
records on both paths, but the two guest counts disagree: the creation-time
group record counts only guests with a non-empty display name, while the
recomputed read-path view of `GET /api/groups` counts every guest-name key;
on the spec's example the former is 2 and the latter 3 (wineCount 6). -/
theorem c8_amended_counts :
    (∀ (st : Store0) (orderId groupName : String)
        (gns : List (String × String)) (sels : Selections),
      recomputeGroup (createOrder0 st orderId groupName gns sels)
          (mkGroup0 orderId groupName gns sels) =
        (gns.length, (sels.map (fun kv => kv.2.length)).sum) ∧
      (mkGroup0 orderId groupName gns sels).guestCount =
        (gns.filter (fun kv => kv.2 != "")).length ∧
      (mkGroup0 orderId groupName gns sels).wineCount =
        (sels.map (fun kv => kv.2.length)).sum) ∧
    (mkGroup0 "o1" "Table 5" exGuestNames exSelections).guestCount = 2 ∧
    recomputeGroup (createOrder0 ⟨[], []⟩ "o1" "Table 5" exGuestNames exSelections)
        (mkGroup0 "o1" "Table 5" exGuestNames exSelections) = (3, 6) := by
  refine ⟨?_, by decide, by decide⟩
  intro st orderId groupName gns sels
  refine ⟨?_, rfl, ?_⟩
  · simp [recomputeGroup, createOrder0, mkGroup0, alookup_aset_self, mkOrder0,
      foldl_wineCount]
  · show sels.foldl (fun t kv => t + kv.2.length) 0 = _
    rw [foldl_wineCount]; simp

/-! ## Claim C9: guest-key invariant of created orders -/

/-- Invariant check: every guest key of the selections document exists
among the guest-name keys. -/
def guestKeysOkB (gns : List (String × String)) (sels : Selections) : Bool :=
  sels.all (fun kv => gns.any (fun g => g.1 == kv.1))

/-- Claim C9 counterexample: `POST /api/orders` stores the request's
`guestNames` and `selections` without cross-validation, so a request whose
selections mention the guest key `ghost` while `guestNames` is empty
produces a stored Order violating the invariant. -/
theorem c9_counterexample :
    alookup (createOrder0 ⟨[], []⟩ "o1" "G" []
        [("ghost", [⟨"w1", "pending"⟩])]).orders "o1" =
      some (mkOrder0 "o1" "G" [] [("ghost", [⟨"w1", "pending"⟩])]) ∧
    guestKeysOkB (mkOrder0 "o1" "G" [] [("ghost", [⟨"w1", "pending"⟩])]).guestNames
      (mkOrder0 "o1" "G" [] [("ghost", [⟨"w1", "pending"⟩])]).selections = false := by
  refine ⟨by decide, by decide⟩

/-- Claim C9 as amended: create copies `guestNames` and `selections` from
the request unvalidated, so the stored Order satisfies the guest-key
invariant exactly when the request already does; a successful
selection-status update preserves the invariant (it only rewrites a status
field, never the key structure). -/
theorem c9_invariant_amended (orderId groupName : String)
    (gns : List (String × String)) (sels : Selections)
    (guest : String) (idx : Nat) (st : String) (s2 : Selections) :
    (guestKeysOkB (mkOrder0 orderId groupName gns sels).guestNames
        (mkOrder0 orderId groupName gns sels).selections = guestKeysOkB gns sels) ∧
    (updateSel sels guest idx st = some s2 →
      guestKeysOkB gns s2 = guestKeysOkB gns sels) := by
  refine ⟨rfl, ?_⟩
  intro h
  exact all_key_pred (fun k => gns.any (fun g => g.1 == k)) s2 sels
    (updateSel_map_fst sels guest idx st s2 h)

/-- Claim C9 amended witness: concrete one-guest order whose selection
status update keeps the invariant check unchanged. -/
theorem c9_invariant_amended_witness :
    guestKeysOkB [("a", "Ann")] [("a", [⟨"w1", "servi"⟩])] =
      guestKeysOkB [("a", "Ann")] [("a", [⟨"w1", "pending"⟩])] :=
  (c9_invariant_amended "o1" "G" [("a", "Ann")] [("a", [⟨"w1", "pending"⟩])]
    "a" 0 "servi" [("a", [⟨"w1", "servi"⟩])]).2 (by decide)

/-! ## Claim C5: resolver precedence -/

/-- Claim C5: the resolver of `GET /api/orders/:identifier` tries, in the
fixed order, (a) exact order-id match, (b) exact match against a stored
group slug (followed through the group's `orderId` when that is truthy and
still present), (c) the fallback scan comparing the identifier to the
recomputed slug of every known order's `groupName`, returning the first
match; when nothing matches it answers NotFound carrying the identifier
and the currently known order ids and group slugs. -/
theorem c5_resolver_precedence (st : Store0) (identifier : String) :
    (∀ o, alookup st.orders identifier = some o →
      getOrderHandler st identifier = .found o) ∧
    (∀ g o, alookup st.orders identifier = none →
      alookup st.groups identifier = some g → g.orderId ≠ "" →
      alookup st.orders g.orderId = some o →
      getOrderHandler st identifier = .found o) ∧
    (∀ kv, alookup st.orders identifier = none →
      (∀ g, alookup st.groups identifier = some g →
        g.orderId = "" ∨ alookup st.orders g.orderId = none) →
      st.orders.find? (fun p => slug p.2.groupName == identifier) = some kv →
      getOrderHandler st identifier = .found kv.2) ∧
    (alookup st.orders identifier = none →
      (∀ g, alookup st.groups identifier = some g →
        g.orderId = "" ∨ alookup st.orders g.orderId = none) →
      st.orders.find? (fun p => slug p.2.groupName == identifier) = none →
      getOrderHandler st identifier =
        .notFound identifier (st.orders.map (fun kv => kv.1))
          (st.groups.map (fun kv => kv.1))) := by
  refine ⟨?_, ?_, ?_, ?_⟩
  · intro o h
    simp [getOrderHandler, resolveOrder, h]
  · intro g o h1 h2 h3 h4
    simp [getOrderHandler, resolveOrder, h1, h2, h3, h4]
  · intro kv h1 hg h3
    cases hgl : alookup st.groups identifier with
    | none => simp [getOrderHandler, resolveOrder, resolveFallback, h1, hgl, h3]
    | some g =>
      rcases hg g hgl with he | hn
      · simp [getOrderHandler, resolveOrder, resolveFallback, h1, hgl, he, h3]
      · by_cases he2 : g.orderId = ""
        · simp [getOrderHandler, resolveOrder, resolveFallback, h1, hgl, he2, h3]
        · simp [getOrderHandler, resolveOrder, resolveFallback, h1, hgl, he2, hn, h3]
  · intro h1 hg h3
    cases hgl : alookup st.groups identifier with
    | none => simp [getOrderHandler, resolveOrder, resolveFallback, h1, hgl, h3]
    | some g =>
      rcases hg g hgl with he | hn
      · simp [getOrderHandler, resolveOrder, resolveFallback, h1, hgl, he, h3]
      · by_cases he2 : g.orderId = ""
        · simp [getOrderHandler, resolveOrder, resolveFallback, h1, hgl, he2, h3]
        · simp [getOrderHandler, resolveOrder, resolveFallback, h1, hgl, he2, hn, h3]

/-- Store of the specification's resolver example: one order with id `o1`
and group name `Table 5`, hence group slug `table_5`. -/
def exStore5 : Store0 :=
  createOrder0 ⟨[], []⟩ "o1" "Table 5" [("g1", "Alice")]
    [("g1", [⟨"w1", "pending"⟩])]

/-- Claim C5 witness: in the example store, `o1` resolves by id, `table_5`
resolves through the group slug, and `nonexistent` yields NotFound with
the known ids and slugs. -/
theorem c5_resolver_witness :
    getOrderHandler exStore5 "o1" =
      .found (mkOrder0 "o1" "Table 5" [("g1", "Alice")] [("g1", [⟨"w1", "pending"⟩])]) ∧
    getOrderHandler exStore5 "table_5" =
      .found (mkOrder0 "o1" "Table 5" [("g1", "Alice")] [("g1", [⟨"w1", "pending"⟩])]) ∧
    getOrderHandler exStore5 "nonexistent" =
      .notFound "nonexistent" ["o1"] ["table_5"] := by
  refine ⟨?_, ?_, ?_⟩
  · exact (c5_resolver_precedence exStore5 "o1").1 _ (by decide)
  · exact (c5_resolver_precedence exStore5 "table_5").2.1
      (mkGroup0 "o1" "Table 5" [("g1", "Alice")] [("g1", [⟨"w1", "pending"⟩])]) _
      (by decide) (by decide) (by decide) (by decide)
  · refine (c5_resolver_precedence exStore5 "nonexistent").2.2.2 (by decide) ?_ (by decide)
    intro g hg
    rw [show alookup exStore5.groups "nonexistent" = (none : Option Group0) from by decide] at hg
    cases hg

/-! ## Express router backed by PostgreSQL (src/unnamed/part_003) -/

/-- Row of the `orders` table of part_003 (lines 9-21); `plateau_data`
carries no logic for the claims and is omitted.  Timestamps are naturals. -/
structure Row3 where
  id : Nat
  group_name : String
  guest_names : List (String × String)
  selections : Selections
  status : String
  created_at : Nat
  updated_at : Nat
deriving DecidableEq, Repr

/-- Responses of `POST /` of part_003. -/
inductive Create3Result where
  | missingName
  | conflict
  | created (orderId : Nat)
deriving DecidableEq, Repr

/-- Handler `POST /` of part_003 (lines 84-130): reject a falsy group name,
reject when ANY existing row (of any status) has the exact same
`group_name`, otherwise insert a new row with status `active`.  `freshId`
models the SERIAL id and `now` the NOW() default timestamps. -/
def create3 (table : List Row3) (freshId now : Nat) (groupName : String)
    (guestNames : List (String × String)) (selections : Selections) :
    List Row3 × Create3Result :=
  if groupName = "" then (table, .missingName)
  else if table.any (fun r => r.group_name == groupName) then (table, .conflict)
  else
    (table ++ [{ id := freshId, group_name := groupName,
                 guest_names := guestNames, selections := selections,
                 status := "active", created_at := now, updated_at := now }],
     .created freshId)

/-- Responses of `PUT /:orderId/status` of part_003. -/
inductive Put3Result where
  | invalidStatus
  | ok
deriving DecidableEq, Repr

/-- Handler `PUT /:orderId/status` of part_003 (lines 170-189): after
checking the target status is one of active, completed or cancelled, it
updates the row unconditionally (no check of the current status) and
reports success even when no row matches the id. -/
def putOrderStatus3 (table : List Row3) (orderId : Nat) (newStatus : String)
    (now : Nat) : List Row3 × Put3Result :=
  if ["active", "completed", "cancelled"].contains newStatus then
    (table.map (fun r =>
        if r.id == orderId then { r with status := newStatus, updated_at := now } else r),
     .ok)
  else (table, .invalidStatus)

/-- Responses of `PUT /:orderId/wine-status` of part_003. -/
inductive Wine3Result where
  | notFound
  | invalidSelection
  | ok
deriving DecidableEq, Repr

/-- Handler `PUT /:orderId/wine-status` of part_003 (lines 133-167): look
the row up by id, guard guest key and index, set the status field and
write the document back with `updated_at = NOW()`.  The current lifecycle
status of the order is never consulted. -/
def putWineStatus3 (table : List Row3) (orderId : Nat) (guestId : String)
    (wineIndex : Nat) (status : String) (now : Nat) : List Row3 × Wine3Result :=
  match table.find? (fun r => r.id == orderId) with
  | none => (table, .notFound)
  | some r =>
    match updateSel r.selections guestId wineIndex status with
    | none => (table, .invalidSelection)
    | some s2 =>
      (table.map (fun row =>
          if row.id == orderId then { row with selections := s2, updated_at := now } else row),
       .ok)

/-- Table holding the single active order `Table 5`, as created by
`create3` on an empty table. -/
def exTable5 : List Row3 :=
  (create3 [] 1 0 "Table 5" [("g1", "Alice")] [("g1", [⟨"w1", "pending"⟩])]).1

/-- Claim C2 counterexample: with an active order named `Table 5` already
stored, creating `table_5` — a distinct name with the identical slug —
succeeds instead of failing with Conflict, because the duplicate check
compares the raw `group_name`, never the slug. -/
theorem c2_counterexample :
    slug "Table 5" = slug "table_5" ∧
    exTable5 = [{ id := 1, group_name := "Table 5",
                  guest_names := [("g1", "Alice")],
                  selections := [("g1", [⟨"w1", "pending"⟩])],
                  status := "active", created_at := 0, updated_at := 0 }] ∧
    (create3 exTable5 2 1 "table_5" [] []).2 = .created 2 := by
  refine ⟨by decide, by decide, by decide⟩

/-- Claim C2 as amended: create fails with Conflict exactly when some
already-stored order (of any lifecycle status) has the very same
`groupName` string — names that merely slug identically are not rejected —
and otherwise (for a non-empty name) appends a new order with status
`active` and the freshly assigned id. -/
theorem c2_create_amended (table : List Row3) (freshId now : Nat)
    (groupName : String) (guestNames : List (String × String))
    (selections : Selections) (hname : groupName ≠ "") :
    ((create3 table freshId now groupName guestNames selections).2 = .conflict ↔
      table.any (fun r => r.group_name == groupName) = true) ∧
    (table.any (fun r => r.group_name == groupName) = false →
      create3 table freshId now groupName guestNames selections =
        (table ++ [{ id := freshId, group_name := groupName,
                     guest_names := guestNames, selections := selections,
                     status := "active", created_at := now, updated_at := now }],
         .created freshId)) := by
  constructor
  · constructor
    · intro h
      by_contra hx
      rw [Bool.not_eq_true] at hx
      simp [create3, hname, hx] at h
    · intro h
      simp [create3, hname, h]
  · intro h
    simp [create3, hname, h]

/-- Claim C2 amended witness: an exact duplicate of `Table 5` is a
conflict, and creating `Fresh Name` on that table appends the new active
order. -/
theorem c2_create_amended_witness :
    (create3 exTable5 2 1 "Table 5" [] []).2 = .conflict ∧
    (create3 exTable5 2 1 "Fresh Name" [] []).2 = .created 2 := by
  constructor
  · exact (c2_create_amended exTable5 2 1 "Table 5" [] [] (by decide)).1.mpr (by decide)
  · rw [(c2_create_amended exTable5 2 1 "Fresh Name" [] [] (by decide)).2 (by decide)]

/-! ## Claim C7: lifecycle transitions -/

/-- A stored order already in the terminal state `completed`. -/
def exCompletedRow : Row3 :=
  { id := 1, group_name := "T", guest_names := [("a", "Ann")],
    selections := [("a", [⟨"w1", "pending"⟩])], status := "completed",
    created_at := 0, updated_at := 0 }

/-- Claim C7 counterexample: on an order whose status is `completed`,
`PUT /:orderId/status` with target `active` succeeds and rewrites the
status (the handler never reads the current status), and a selection
update on the same terminal order also succeeds — both contradicting the
claim that terminal states admit no further transitions or selection
updates. -/
theorem c7_counterexample :
    exCompletedRow.status = "completed" ∧
    (putOrderStatus3 [exCompletedRow] 1 "active" 9).2 = .ok ∧
    (putOrderStatus3 [exCompletedRow] 1 "active" 9).1 =
      [{ exCompletedRow with status := "active", updated_at := 9 }] ∧
    (putWineStatus3 [exCompletedRow] 1 "a" 0 "servi" 9).2 = .ok := by
  refine ⟨by decide, by decide, by decide, by decide⟩

/-- Claim C7 as amended: `setOrderStatus` succeeds whenever the target
status is one of active, completed or cancelled, regardless of the current
status (so terminal orders can be mutated and even reactivated); only
targets outside that set are rejected, leaving the table unchanged; and
selection-status updates are not guarded by the order lifecycle at all: a
valid guest/index target succeeds whatever the order's status. -/
theorem c7_lifecycle_amended (table : List Row3) (orderId : Nat)
    (newStatus : String) (now : Nat) :
    (["active", "completed", "cancelled"].contains newStatus = true →
      (putOrderStatus3 table orderId newStatus now).2 = .ok ∧
      (putOrderStatus3 table orderId newStatus now).1 = table.map (fun r =>
        if r.id == orderId then { r with status := newStatus, updated_at := now } else r)) ∧
    (["active", "completed", "cancelled"].contains newStatus = false →
      putOrderStatus3 table orderId newStatus now = (table, .invalidStatus)) ∧
    (∀ (r : Row3) (guestId : String) (wineIndex : Nat) (stS : String)
        (s2 : Selections),
      updateSel r.selections guestId wineIndex stS = some s2 →
      (putWineStatus3 [r] r.id guestId wineIndex stS now).2 = .ok) := by
  refine ⟨?_, ?_, ?_⟩
  · intro h
    simp at h
    constructor
    · simp [putOrderStatus3, h]
    · simp [putOrderStatus3, h]
  · intro h
    simp at h
    simp [putOrderStatus3, h]
  · intro r guestId wineIndex stS s2 h
    simp [putWineStatus3, List.find?, h]

/-- Claim C7 amended witness: the completed example order accepts the
`active` target, rejects a junk target, and accepts a selection update. -/
theorem c7_lifecycle_amended_witness :
    (putOrderStatus3 [exCompletedRow] 1 "active" 9).2 = .ok ∧
    putOrderStatus3 [exCompletedRow] 1 "garbage" 9 = ([exCompletedRow], .invalidStatus) ∧
    (putWineStatus3 [exCompletedRow] 1 "a" 0 "servi" 9).2 = .ok := by
  refine ⟨?_, ?_, ?_⟩
  · exact ((c7_lifecycle_amended [exCompletedRow] 1 "active" 9).1 (by decide)).1
  · exact (c7_lifecycle_amended [exCompletedRow] 1 "garbage" 9).2.1 (by decide)
  · exact (c7_lifecycle_amended [exCompletedRow] 1 "a" 9).2.2 exCompletedRow "a" 0 "servi"
      [("a", [⟨"w1", "servi"⟩])] (by decide)

/-! ## Express backend (src/backend/routes/orders.js and src/backend/server.js) -/

/-- Row of the `orders` table as used by src/backend/routes/orders.js and
src/backend/server.js: uuid id, raw group name, JSON documents, lifecycle
status and timestamps (fields not read by any cited handler are omitted). -/
structure RowR where
  id : String
  group_name : String
  guest_names : List (String × String)
  selections : Selections
  status : String
  created_at : Nat
  updated_at : Nat
deriving DecidableEq, Repr

/-- Insertion step of the descending-by-`created_at` sort that models the
SQL `ORDER BY created_at DESC`. -/
def insertDesc (r : RowR) : List RowR → List RowR
  | [] => [r]
  | x :: xs => if x.created_at < r.created_at then r :: x :: xs else x :: insertDesc r xs

/-- Descending-by-`created_at` sort modelling `ORDER BY created_at DESC`. -/
def sortByCreatedDesc : List RowR → List RowR
  | [] => []
  | r :: rest => insertDesc r (sortByCreatedDesc rest)

/-- The query `SELECT * FROM orders WHERE group_name = $1 ORDER BY
created_at DESC LIMIT 1` shared by `GET /group/:groupName` and
`PUT /:groupName/status` of routes/orders.js (lines 66 and 143). -/
def latestByGroupName (table : List RowR) (groupName : String) : Option RowR :=
  (sortByCreatedDesc (table.filter (fun r => r.group_name == groupName))).head?

/-- Handler `GET /group/:groupName` of routes/orders.js (lines 140-168). -/
def getByGroup (table : List RowR) (groupName : String) : Option RowR :=
  latestByGroupName table groupName

/-- Handler `PUT /:orderId/status` of routes/orders.js (lines 104-137):
find the order by id; mutate the selection IF the guest/index target is
valid; then write the document back and advance `updated_at`
UNCONDITIONALLY — also when the target was invalid — and answer with the
updated row. -/
def putStatusById (table : List RowR) (orderId guestId : String) (wineId : Nat)
    (status : String) (now : Nat) : List RowR × Option RowR :=
  match table.find? (fun r => r.id == orderId) with
  | none => (table, none)
  | some r =>
    let sels2 :=
      match updateSel r.selections guestId wineId status with
      | some s2 => s2
      | none => r.selections
    (table.map (fun row =>
        if row.id == orderId then { row with selections := sels2, updated_at := now }
        else row),
     some { r with selections := sels2, updated_at := now })

/-- Responses of `PUT /:groupName/status` of routes/orders.js. -/
inductive GroupPutResult where
  | notFound
  | invalidSelection
  | ok
deriving DecidableEq, Repr

/-- Handler `PUT /:groupName/status` of routes/orders.js (lines 58-101):
resolve the most recently created order of the group, and only on a valid
guest/index target write the mutated document back (the invalid case is a
400 with no write). -/
def putStatusByGroup (table : List RowR) (groupName guest : String)
    (wineIndex : Nat) (newStatus : String) (now : Nat) : List RowR × GroupPutResult :=
  match latestByGroupName table groupName with
  | none => (table, .notFound)
  | some order =>
    match updateSel order.selections guest wineIndex newStatus with
    | none => (table, .invalidSelection)
    | some s2 =>
      (table.map (fun row =>
          if row.id == order.id then { row with selections := s2, updated_at := now }
          else row),
       .ok)

/-- Responses of `PUT /api/orders/:orderId/status` of server.js. -/
inductive ServerPutResult where
  | missingFields
  | notFound
  | invalidTarget
  | ok
deriving DecidableEq, Repr

/-- Handler `PUT /api/orders/:orderId/status` of src/backend/server.js
(lines 198-272): reject falsy fields, 404 on unknown id, 400 with no write
on an invalid guest/index target, otherwise rewrite the whole selections
document and advance `updated_at`. -/
def putStatusServer (table : List RowR) (orderId guest : String) (itemIndex : Nat)
    (newStatus : String) (now : Nat) : List RowR × ServerPutResult :=
  if guest == "" || newStatus == "" then (table, .missingFields)
  else
    match table.find? (fun r => r.id == orderId) with
    | none => (table, .notFound)
    | some r =>
      match updateSel r.selections guest itemIndex newStatus with
      | none => (table, .invalidTarget)
      | some s2 =>
        (table.map (fun row =>
            if row.id == orderId then { row with selections := s2, updated_at := now }
            else row),
         .ok)

/-! ## Ordering lemmas for the latest-by-group query -/

/-- Membership in the insertion step. -/
theorem mem_insertDesc (r a : RowR) (l : List RowR) :
    a ∈ insertDesc r l ↔ a = r ∨ a ∈ l := by
  induction l with
  | nil => simp [insertDesc]
  | cons x xs ih =>
    by_cases hc : x.created_at < r.created_at
    · simp [insertDesc, hc]
    · simp [insertDesc, hc, ih]
      tauto

/-- Membership is preserved by the descending sort. -/
theorem mem_sortByCreatedDesc (l : List RowR) (a : RowR) :
    a ∈ sortByCreatedDesc l ↔ a ∈ l := by
  induction l with
  | nil => simp [sortByCreatedDesc]
  | cons x xs ih => simp [sortByCreatedDesc, mem_insertDesc, ih]

/-- Insertion never produces the empty list. -/
theorem insertDesc_ne_nil (r : RowR) (l : List RowR) : insertDesc r l ≠ [] := by
  cases l with
  | nil => simp [insertDesc]
  | cons x xs =>
    by_cases hc : x.created_at < r.created_at
    · simp [insertDesc, hc]
    · simp [insertDesc, hc]

/-- The sort result is empty exactly when the input is. -/
theorem sortByCreatedDesc_eq_nil_iff (l : List RowR) :
    sortByCreatedDesc l = [] ↔ l = [] := by
  cases l with
  | nil => simp [sortByCreatedDesc]
  | cons x xs =>
    constructor
    · intro h
      exact absurd h (insertDesc_ne_nil x (sortByCreatedDesc xs))
    · intro h
      cases h

/-- The head of the insertion step is maximal, provided the head of the
list inserted into already was. -/
theorem insertDesc_head_max (r : RowR) (s : List RowR)
    (hs : ∀ z, s.head? = some z → ∀ x ∈ s, x.created_at ≤ z.created_at) :
    ∀ y, (insertDesc r s).head? = some y →
      (y = r ∨ y ∈ s) ∧ r.created_at ≤ y.created_at ∧
      ∀ x ∈ s, x.created_at ≤ y.created_at := by
  cases s with
  | nil =>
    intro y h
    simp [insertDesc] at h
    subst h
    exact ⟨Or.inl rfl, le_refl _, by simp⟩
  | cons x xs =>
    intro y h
    by_cases hc : x.created_at < r.created_at
    · simp [insertDesc, hc] at h
      subst h
      refine ⟨Or.inl rfl, le_refl _, ?_⟩
      intro z hz
      exact le_of_lt (lt_of_le_of_lt (hs x (by simp) z hz) hc)
    · simp [insertDesc, hc] at h
      subst h
      exact ⟨Or.inr (by simp), Nat.le_of_not_lt hc, hs x (by simp)⟩

/-- The head of the descending sort is a member of maximal `created_at`. -/
theorem sortByCreatedDesc_head_max : ∀ (l : List RowR) (y : RowR),
    (sortByCreatedDesc l).head? = some y →
    y ∈ l ∧ ∀ x ∈ l, x.created_at ≤ y.created_at := by
  intro l
  induction l with
  | nil => intro y h; simp [sortByCreatedDesc] at h
  | cons a rest ih =>
    intro y h
    have hs : ∀ z, (sortByCreatedDesc rest).head? = some z →
        ∀ x ∈ sortByCreatedDesc rest, x.created_at ≤ z.created_at := by
      intro z hz x hx
      exact (ih z hz).2 x ((mem_sortByCreatedDesc rest x).mp hx)
    have h2 := insertDesc_head_max a (sortByCreatedDesc rest) hs y h
    constructor
    · rcases h2.1 with he | hm
      · rw [he]; simp
      · exact List.mem_cons_of_mem a ((mem_sortByCreatedDesc rest y).mp hm)
    · intro x hx
      rcases List.mem_cons.mp hx with he | hm
      · rw [he]; exact h2.2.1
      · exact h2.2.2 x ((mem_sortByCreatedDesc rest x).mpr hm)

/-! ## Claim C10: group-name addressing picks the newest matching order -/

/-- Claim C10: a group-name-addressed lookup returns a stored order of
that exact group name whose `created_at` is maximal among all matching
orders (the most recently created one when timestamps are distinct); the
lookup answers NotFound exactly when no order matches; the selection
update addressed by group name operates on the very same row; and in the
in-memory variant a resubmission under an existing name rebinds the group
entry to the newly created order instead of being rejected. -/
theorem c10_latest_by_group (table : List RowR) (g : String) :
    (∀ r, latestByGroupName table g = some r →
      r ∈ table ∧ r.group_name = g ∧
      ∀ x ∈ table, x.group_name = g → x.created_at ≤ r.created_at) ∧
    (latestByGroupName table g = none ↔ ∀ x ∈ table, ¬x.group_name = g) ∧
    (getByGroup table g = latestByGroupName table g) ∧
    (∀ guest idx ns now, latestByGroupName table g = none →
      putStatusByGroup table g guest idx ns now = (table, .notFound)) ∧
    (∀ r guest idx ns now s2, latestByGroupName table g = some r →
      updateSel r.selections guest idx ns = some s2 →
      putStatusByGroup table g guest idx ns now =
        (table.map (fun row =>
          if row.id == r.id then { row with selections := s2, updated_at := now }
          else row),
         .ok)) ∧
    (∀ (st : Store0) (oid gn : String) (gns : List (String × String))
        (sels : Selections),
      alookup (createOrder0 st oid gn gns sels).groups (slug gn) =
        some (mkGroup0 oid gn gns sels)) := by
  refine ⟨?_, ?_, rfl, ?_, ?_, ?_⟩
  · intro r h
    have h2 := sortByCreatedDesc_head_max _ r h
    have hmem := List.mem_filter.mp h2.1
    refine ⟨hmem.1, by simpa using hmem.2, ?_⟩
    intro x hx hg
    exact h2.2 x (List.mem_filter.mpr ⟨hx, by simp [hg]⟩)
  · unfold latestByGroupName
    rw [List.head?_eq_none_iff, sortByCreatedDesc_eq_nil_iff, List.filter_eq_nil_iff]
    simp
  · intro guest idx ns now h
    simp [putStatusByGroup, h]
  · intro r guest idx ns now s2 h hu
    simp [putStatusByGroup, h, hu]
  · intro st oid gn gns sels
    exact alookup_aset_self st.groups (slug gn) (mkGroup0 oid gn gns sels)

/-- Two orders submitted under the same group name `Table 5`, the second
created later. -/
def rowT5a : RowR :=
  { id := "o1", group_name := "Table 5", guest_names := [("a", "Ann")],
    selections := [("a", [⟨"w1", "pending"⟩])], status := "active",
    created_at := 1, updated_at := 1 }

/-- The later of the two `Table 5` orders. -/
def rowT5b : RowR :=
  { id := "o2", group_name := "Table 5", guest_names := [("b", "Bob")],
    selections := [("b", [⟨"w2", "pending"⟩])], status := "active",
    created_at := 5, updated_at := 5 }

/-- Claim C10 witness: with both `Table 5` orders stored, the resolved
row is the most recently created one. -/
theorem c10_latest_by_group_witness :
    rowT5b ∈ [rowT5a, rowT5b] ∧ rowT5b.group_name = "Table 5" ∧
    ∀ x ∈ [rowT5a, rowT5b], x.group_name = "Table 5" →
      x.created_at ≤ rowT5b.created_at :=
  (c10_latest_by_group [rowT5a, rowT5b] "Table 5").1 rowT5b (by decide)

/-! ## Claim C3: invalid targets must not write -/

/-- A stored order with the single guest `alice`. -/
def c3Row : RowR :=
  { id := "o1", group_name := "T", guest_names := [("alice", "Alice")],
    selections := [("alice", [⟨"w1", "pending"⟩])], status := "active",
    created_at := 0, updated_at := 5 }

/-- Claim C3 failing input: `guestId = bob` is not a guest of the order,
so the claim demands InvalidTarget with no write; yet the id-addressed
handler of routes/orders.js answers with the (unchanged-selections) row
and STILL rewrites it, advancing `updated_at` from 5 to 99.  The sibling
handler of server.js handles the same input as the claim demands: a 400
with no write. -/
theorem c3_invalid_target_still_writes :
    updateSel c3Row.selections "bob" 0 "servi" = none ∧
    putStatusById [c3Row] "o1" "bob" 0 "servi" 99 =
      ([{ c3Row with updated_at := 99 }], some { c3Row with updated_at := 99 }) ∧
    ({ c3Row with updated_at := 99 } : RowR) ≠ c3Row ∧
    putStatusServer [c3Row] "o1" "bob" 0 "servi" 99 = ([c3Row], .invalidTarget) := by
  refine ⟨by decide, by decide, by decide, by decide⟩

/-! ## Claim C1: concurrent updates of two different selections -/

/-- The target of one status-update request: a (guest, index, status)
triple. -/
structure Target where
  guest : String
  idx : Nat
  status : String
deriving DecidableEq, Repr

/-- State of two concurrent executions of the server.js status handler on
the same order: the stored selections document plus each request's local
snapshot (the handler SELECTs the whole document, mutates its copy, then
UPDATEs the whole document). -/
structure CState where
  stored : Selections
  loc1 : Option Selections
  loc2 : Option Selections
deriving DecidableEq, Repr

/-- Atomic events of the two concurrent handler executions: each one
performs its read (SELECT) and then its write (UPDATE). -/
inductive Ev where
  | read1
  | read2
  | write1
  | write2
deriving DecidableEq, Repr

/-- Small-step semantics of the two concurrent executions of
`PUT /api/orders/:orderId/status`: a read snapshots the stored document; a
write stores the snapshot with the request's single selection mutated
(or, on an invalid target, performs no write, as in the handler). A write
before the corresponding read does nothing. -/
def execEv (t1 t2 : Target) (st : CState) (e : Ev) : CState :=
  match e with
  | .read1 => { st with loc1 := some st.stored }
  | .read2 => { st with loc2 := some st.stored }
  | .write1 =>
    match st.loc1 with
    | some snap =>
      match updateSel snap t1.guest t1.idx t1.status with
      | some s2 => { st with stored := s2 }
      | none => st
    | none => st
  | .write2 =>
    match st.loc2 with
    | some snap =>
      match updateSel snap t2.guest t2.idx t2.status with
      | some s2 => { st with stored := s2 }
      | none => st
    | none => st

/-- Run an interleaving of the two concurrent handler executions and
return the finally stored selections document. -/
def runSched (t1 t2 : Target) (sel0 : Selections) (sched : List Ev) : Selections :=
  (sched.foldl (execEv t1 t2) { stored := sel0, loc1 := none, loc2 := none }).stored

/-- Initial selections: guests `a` and `b`, one pending selection each. -/
def c1Sel0 : Selections :=
  [("a", [⟨"w1", "pending"⟩]), ("b", [⟨"w2", "pending"⟩])]

/-- Request targeting guest `a`'s selection. -/
def c1TargetA : Target := ⟨"a", 0, "servi"⟩

/-- Request targeting guest `b`'s selection. -/
def c1TargetB : Target := ⟨"b", 0, "servi"⟩

/-- Claim C1 evaluated on the code: under the sequential interleaving both
updates survive, but under the interleaving where both requests read
before either writes, guest `a`'s update is lost — the final document has
`a` back at `pending` — because each handler rewrites the whole selections
document from its own stale snapshot.  This refutes "both updates are
present regardless of interleaving" for the code as written. -/
theorem c1_lost_update :
    runSched c1TargetA c1TargetB c1Sel0 [.read1, .write1, .read2, .write2] =
      [("a", [⟨"w1", "servi"⟩]), ("b", [⟨"w2", "servi"⟩])] ∧
    runSched c1TargetA c1TargetB c1Sel0 [.read1, .read2, .write1, .write2] =
      [("a", [⟨"w1", "pending"⟩]), ("b", [⟨"w2", "servi"⟩])] := by
  refine ⟨by decide, by decide⟩
